import Mathlib

/-! Verification of the BOINC GUI_RPC client library (src/boinc/client.py).
A shallow embedding of the XML decoding engine, the enumeration name lookup,
version comparison, the authentication digest and the session orchestration,
together with theorems checking the specified behaviour. -/

namespace Boinc

/-- Shallow model of an `xml.etree.ElementTree.Element`: a tag, optional
text, and the list of child elements in document order. -/
structure Element where
  tag : String
  text : Option String
  children : List Element

/-- Python `str.isspace` for the characters `str.strip` removes. -/
def pyIsSpace (c : Char) : Bool :=
  c == ' ' || c == '\t' || c == '\n' || c == '\r' || c == '\x0b' || c == '\x0c'

/-- Python `str.strip()`: drop leading and trailing whitespace. -/
def pyStrip (s : String) : String :=
  String.mk (((s.data.dropWhile pyIsSpace).reverse.dropWhile pyIsSpace).reverse)

/-- Python `str.lower()` (the strings involved are ASCII). -/
def pyLower (s : String) : String :=
  String.mk (s.data.map Char.toLower)

/-- Helper from client.py: convert `Element.text` to boolean.
`if e.text is None: return True` else
`bool(e.text) and not e.text.strip().lower() in ("0", "false")`. -/
def parse_bool (e : Element) : Bool :=
  match e.text with
  | none => true
  | some s =>
      (!(s == "")) &&
        (!(pyLower (pyStrip s) == "0" || pyLower (pyStrip s) == "false"))

/-- Numeric value of a list of decimal digit characters. -/
def digitsVal (l : List Char) : Nat :=
  l.foldl (fun a c => a * 10 + (c.toNat - 48)) 0

/-- Model of Python `float(s)` restricted to plain decimal literals
`[sign] digits [. digits]`; `none` models a `ValueError`.  The value of
`[sign] ip . fp` is `sign * (ip * 10 ^ |fp| + fp) / 10 ^ |fp|`. -/
def pyFloat (s : String) : Option ℚ :=
  let signAndRest : Int × List Char :=
    match s.data with
    | '-' :: r => (-1, r)
    | '+' :: r => (1, r)
    | r => (1, r)
  let sign := signAndRest.1
  let cs := signAndRest.2
  let ip := cs.takeWhile Char.isDigit
  let rest := cs.dropWhile Char.isDigit
  match rest with
  | [] => if ip.isEmpty then none else some (mkRat (sign * digitsVal ip) 1)
  | '.' :: fp =>
      if fp.all Char.isDigit && !(ip.isEmpty && fp.isEmpty) then
        some (mkRat (sign * (digitsVal ip * 10 ^ fp.length + digitsVal fp))
          (10 ^ fp.length))
      else none
  | _ => none

/-- Python `int(q)` on a float value: truncation toward zero. -/
def ratTrunc (q : ℚ) : Int :=
  q.num.tdiv (q.den : Int)

/-- Helper from client.py: convert `Element.text` to integer,
`0 if e.text is None else int(float(e.text.strip()))`. -/
def parse_int (e : Element) : Option Int :=
  match e.text with
  | none => some 0
  | some s => (pyFloat (pyStrip s)).map ratTrunc

/-- Helper from client.py: convert `Element.text` to float,
`0.0 if e.text is None else float(e.text.strip())`. -/
def parse_float (e : Element) : Option ℚ :=
  match e.text with
  | none => some 0
  | some s => pyFloat (pyStrip s)

/-- Helper from client.py: convert `Element.text` to string,
`"" if e.text is None else e.text.strip()`. -/
def parse_str (e : Element) : String :=
  match e.text with
  | none => ""
  | some s => pyStrip s

/-- Helper from client.py: `parse_list` returns the element's children. -/
def parse_list (e : Element) : List Element :=
  e.children

/-- The six enumeration classes derived from `Enum` in client.py. -/
inductive EnumCls where
  | networkStatus
  | suspendReason
  | runMode
  | cpuSched
  | resultState
  | process

/-- Integer constants of each class's own `__dict__` (the subclass body, in
source order; the inherited `Enum.UNKNOWN = -1` is not among them, since
Python's `cls.__dict__` holds only the class's own attributes). -/
def ownDict : EnumCls → List (String × Int)
  | .networkStatus =>
      [("ONLINE", 0), ("WANT_CONNECTION", 1), ("WANT_DISCONNECT", 2),
       ("LOOKUP_PENDING", 3)]
  | .suspendReason =>
      [("NOT_SUSPENDED", 0), ("BATTERIES", 1), ("USER_ACTIVE", 2),
       ("USER_REQ", 4), ("TIME_OF_DAY", 8), ("BENCHMARKS", 16),
       ("DISK_SIZE", 32), ("CPU_THROTTLE", 64), ("NO_RECENT_INPUT", 128),
       ("INITIAL_DELAY", 256), ("EXCLUSIVE_APP_RUNNING", 512),
       ("CPU_USAGE", 1024), ("NETWORK_QUOTA_EXCEEDED", 2048), ("OS", 4096),
       ("WIFI_STATE", 4097), ("BATTERY_CHARGING", 4098),
       ("BATTERY_OVERHEATED", 4099)]
  | .runMode =>
      [("ALWAYS", 1), ("AUTO", 2), ("NEVER", 3), ("RESTORE", 4)]
  | .cpuSched =>
      [("UNINITIALIZED", 0), ("PREEMPTED", 1), ("SCHEDULED", 2)]
  | .resultState =>
      [("NEW", 0), ("FILES_DOWNLOADING", 1), ("FILES_DOWNLOADED", 2),
       ("COMPUTE_ERROR", 3), ("FILES_UPLOADING", 4), ("FILES_UPLOADED", 5),
       ("ABORTED", 6), ("UPLOAD_FAILED", 7)]
  | .process =>
      [("UNINITIALIZED", 0), ("EXECUTING", 1), ("SUSPENDED", 9),
       ("ABORT_PENDING", 5), ("QUIT_PENDING", 8), ("COPY_PENDING", 10)]

/-- Label derivation of `Enum.name`'s fallback: `k.lower().replace("_", " ")`. -/
def pyAttrLabel (k : String) : String :=
  String.mk ((pyLower k).data.map (fun c => if c == '_' then ' ' else c))

/-- Scan of `cls.__dict__` in `Enum.name`: first attribute whose value equals
the code, rendered through `pyAttrLabel`. -/
def dictLookup (d : List (String × Int)) (v : Int) : Option String :=
  (d.find? (fun p => p.2 == v)).map (fun p => pyAttrLabel p.1)

/-- The explicit `if v == cls.X` chains of the overriding `name` classmethods
(`NetworkStatus.name`, `SuspendReason.name`, `RunMode.name`); the classes
without an override contribute nothing here. -/
def overrideBranch : EnumCls → Int → Option String
  | .networkStatus, v =>
      if v == -1 then some "unknown"
      else if v == 0 then some "up"
      else if v == 1 then some "need connection"
      else if v == 2 then some "do not need connection"
      else if v == 3 then some "reference site lookup pending"
      else none
  | .suspendReason, v =>
      if v == -1 then some "unknown reason"
      else if v == 1 then some "on batteries"
      else if v == 2 then some "computer is in use"
      else if v == 4 then some "user request"
      else if v == 8 then some "time of day"
      else if v == 16 then some "CPU benchmarks in progress"
      else if v == 32 then some "need disk space - check preferences"
      else if v == 128 then some "no recent user activity"
      else if v == 256 then some "initial delay"
      else if v == 512 then some "an exclusive app is running"
      else if v == 1024 then some "CPU is busy"
      else if v == 2048 then some "network bandwidth limit exceeded"
      else if v == 4096 then some "requested by operating system"
      else if v == 4097 then some "not connected to WiFi network"
      else if v == 4098 then some "battery is recharging"
      else if v == 4099 then some "battery is overheated"
      else none
  | .runMode, v =>
      if v == 2 then some "according to preferences" else none
  | _, _ => none

/-- Fueled model of `cls.name(v)` for an integer code `v`.  The subclass
override runs first; on no match it defers to `Enum.name`, which scans
`cls.__dict__` and, when the code is absent, re-enters `cls.name(-1)`
(`return cls.name(Enum.UNKNOWN)`).  Each such fallback hop consumes one unit
of fuel; `none` means the call has not returned within `fuel` hops, i.e. the
Python call recurses without bound.  (The `hasattr(cls, str(value))` branch
of `Enum.name` never fires for an integer code, since `str(value)` is then
never an attribute name.) -/
def enumName (cls : EnumCls) : Nat → Int → Option String
  | fuel, v =>
    match overrideBranch cls v with
    | some s => some s
    | none =>
        match dictLookup (ownDict cls) v with
        | some s => some s
        | none =>
            match fuel with
            | 0 => none
            | Nat.succ f => enumName cls f (-1)

/-- Tuple comparison state for `VersionInfo` (major, minor, release). -/
structure VersionInfo where
  major : Int
  minor : Int
  release : Int

/-- The `_tuple` property of `VersionInfo`. -/
def viTuple (v : VersionInfo) : Int × Int × Int :=
  (v.major, v.minor, v.release)

/-- `VersionInfo.__eq__` between two `VersionInfo` values (the
`isinstance` test succeeds): tuple equality. -/
def viEq (a b : VersionInfo) : Bool :=
  viTuple a == viTuple b

/-- `VersionInfo.__gt__` between two `VersionInfo` values: Python
lexicographic tuple `>`. -/
def viGt (a b : VersionInfo) : Bool :=
  decide (b.major < a.major) ||
    (a.major == b.major &&
      (decide (b.minor < a.minor) ||
        (a.minor == b.minor && decide (b.release < a.release))))

/-- The `__lt__` synthesized by `functools.total_ordering` from `__gt__`:
`not self.__gt__(other) and self != other`. -/
def viLt (a b : VersionInfo) : Bool :=
  !viGt a b && !viEq a b

/-- A value compared against a `VersionInfo`: either another `VersionInfo`
or an object of an incompatible type. -/
inductive PyOperand where
  | vi (v : VersionInfo)
  | intObj (n : Int)
  | strObj (s : String)

/-- Dynamic `VersionInfo.__eq__`: `isinstance(other, self.__class__) and
self._tuple == other._tuple`, hence `False` for incompatible types. -/
def viEqDyn (a : VersionInfo) : PyOperand → Bool
  | .vi b => viEq a b
  | _ => false

/-- Dynamic `VersionInfo.__gt__`: `NotImplemented` (modelled as `none`) for
an operand of an incompatible type, otherwise the tuple comparison. -/
def viGtDyn (a : VersionInfo) : PyOperand → Option Bool
  | .vi b => some (viGt a b)
  | _ => none

/-- UTF-8 encoding of one code point (model of Python `str.encode("utf-8")`). -/
def utf8Enc (n : Nat) : List Nat :=
  if n < 128 then [n]
  else if n < 2048 then [192 + n / 64, 128 + n % 64]
  else if n < 65536 then
    [224 + n / 4096, 128 + (n / 64) % 64, 128 + n % 64]
  else
    [240 + n / 262144, 128 + (n / 4096) % 64, 128 + (n / 64) % 64,
     128 + n % 64]

/-- UTF-8 bytes of a string. -/
def utf8Bytes (s : String) : List Nat :=
  (s.data.map (fun c => utf8Enc c.toNat)).flatten

/-- Reduction modulo `2 ^ 32`. -/
def w32 (n : Nat) : Nat := n % 4294967296

/-- Addition modulo `2 ^ 32`. -/
def wadd (a b : Nat) : Nat := w32 (a + b)

/-- Bitwise complement on 32-bit words. -/
def wnot (a : Nat) : Nat := 4294967295 - w32 a

/-- Left rotation of a 32-bit word by `c` places (`0 < c < 32`); the two
shifted parts occupy disjoint bit ranges, so their sum is their union. -/
def rotl (x c : Nat) : Nat :=
  w32 (x * 2 ^ c) + x / 2 ^ (32 - c)

/-- Per-round constants of MD5 (`floor(abs(sin(i + 1)) * 2^32)`). -/
def mdK : List Nat :=
  [0xd76aa478, 0xe8c7b756, 0x242070db, 0xc1bdceee,
   0xf57c0faf, 0x4787c62a, 0xa8304613, 0xfd469501,
   0x698098d8, 0x8b44f7af, 0xffff5bb1, 0x895cd7be,
   0x6b901122, 0xfd987193, 0xa679438e, 0x49b40821,
   0xf61e2562, 0xc040b340, 0x265e5a51, 0xe9b6c7aa,
   0xd62f105d, 0x02441453, 0xd8a1e681, 0xe7d3fbc8,
   0x21e1cde6, 0xc33707d6, 0xf4d50d87, 0x455a14ed,
   0xa9e3e905, 0xfcefa3f8, 0x676f02d9, 0x8d2a4c8a,
   0xfffa3942, 0x8771f681, 0x6d9d6122, 0xfde5380c,
   0xa4beea44, 0x4bdecfa9, 0xf6bb4b60, 0xbebfbc70,
   0x289b7ec6, 0xeaa127fa, 0xd4ef3085, 0x04881d05,
   0xd9d4d039, 0xe6db99e5, 0x1fa27cf8, 0xc4ac5665,
   0xf4292244, 0x432aff97, 0xab9423a7, 0xfc93a039,
   0x655b59c3, 0x8f0ccc92, 0xffeff47d, 0x85845dd1,
   0x6fa87e4f, 0xfe2ce6e0, 0xa3014314, 0x4e0811a1,
   0xf7537e82, 0xbd3af235, 0x2ad7d2bb, 0xeb86d391]

/-- Per-round left-rotation amounts of MD5. -/
def mdS : List Nat :=
  [7, 12, 17, 22, 7, 12, 17, 22, 7, 12, 17, 22, 7, 12, 17, 22,
   5, 9, 14, 20, 5, 9, 14, 20, 5, 9, 14, 20, 5, 9, 14, 20,
   4, 11, 16, 23, 4, 11, 16, 23, 4, 11, 16, 23, 4, 11, 16, 23,
   6, 10, 15, 21, 6, 10, 15, 21, 6, 10, 15, 21, 6, 10, 15, 21]

/-- MD5 padding: append `0x80`, zero bytes up to 56 mod 64, then the
original bit length as eight little-endian bytes. -/
def md5Pad (msg : List Nat) : List Nat :=
  let len := msg.length
  let z := (119 - len % 64) % 64
  msg ++ [128] ++ List.replicate z 0 ++
    ((List.range 8).map (fun i => len * 8 / 256 ^ i % 256))

/-- Little-endian 32-bit words of a block of bytes. -/
def leWords : List Nat → List Nat
  | b0 :: b1 :: b2 :: b3 :: rest =>
      (b0 + 256 * b1 + 65536 * b2 + 16777216 * b3) :: leWords rest
  | _ => []

/-- One MD5 compression round step `i` on state `(a, b, c, d)` with message
words `m`. -/
def md5Step (m : List Nat) (st : Nat × Nat × Nat × Nat) (i : Nat) :
    Nat × Nat × Nat × Nat :=
  let a := st.1
  let b := st.2.1
  let c := st.2.2.1
  let d := st.2.2.2
  let fg : Nat × Nat :=
    if i < 16 then ((b &&& c) ||| (wnot b &&& d), i)
    else if i < 32 then ((d &&& b) ||| (wnot d &&& c), (5 * i + 1) % 16)
    else if i < 48 then (b ^^^ c ^^^ d, (3 * i + 5) % 16)
    else (c ^^^ (b ||| wnot d), 7 * i % 16)
  let f := w32 (fg.1 + a + mdK.getD i 0 + m.getD fg.2 0)
  (d, wadd b (rotl f (mdS.getD i 0)), b, c)

/-- MD5 compression of one 64-byte block into the running state. -/
def md5Compress (st : Nat × Nat × Nat × Nat) (block : List Nat) :
    Nat × Nat × Nat × Nat :=
  let m := leWords block
  let r := (List.range 64).foldl (md5Step m) st
  (wadd st.1 r.1, wadd st.2.1 r.2.1, wadd st.2.2.1 r.2.2.1,
   wadd st.2.2.2 r.2.2.2)

/-- Fueled block loop: consume the padded message 64 bytes at a time. -/
def md5Loop : Nat → Nat × Nat × Nat × Nat → List Nat → Nat × Nat × Nat × Nat
  | _, st, [] => st
  | 0, st, _ => st
  | Nat.succ f, st, l => md5Loop f (md5Compress st (l.take 64)) (l.drop 64)

/-- Little-endian bytes of one 32-bit word. -/
def leBytes (w : Nat) : List Nat :=
  [w % 256, w / 256 % 256, w / 65536 % 256, w / 16777216 % 256]

/-- The 16 digest bytes of MD5 over a byte string. -/
def md5Bytes (msg : List Nat) : List Nat :=
  let padded := md5Pad msg
  let st := md5Loop padded.length
    (0x67452301, 0xefcdab89, 0x98badcfe, 0x10325476) padded
  leBytes st.1 ++ leBytes st.2.1 ++ leBytes st.2.2.1 ++ leBytes st.2.2.2

/-- Lowercase hexadecimal digit. -/
def hexDigit (n : Nat) : Char :=
  if n < 10 then Char.ofNat (48 + n) else Char.ofNat (87 + n)

/-- Lowercase hexadecimal rendering of a byte string (`hexdigest()`). -/
def hexOfBytes (l : List Nat) : String :=
  String.mk ((l.map (fun b => [hexDigit (b / 16), hexDigit (b % 16)])).flatten)

/-- Model of `hashlib.md5(s.encode("utf-8")).hexdigest()`. -/
def md5Hex (s : String) : String :=
  hexOfBytes (md5Bytes (utf8Bytes s))

/-- Runtime value of an entity attribute, with the Python type driving the
`setattrs_from_xml` dispatch: `bool`, `int`, `float`, `str`, `list`, the
`None` default, or a raw stored `Element` (the identity fallback). -/
inductive PyVal where
  | bool (b : Bool)
  | int (n : Int)
  | float (q : ℚ)
  | str (s : String)
  | list (l : List Element)
  | pyNone
  | elem (e : Element)

/-- An entity instance: its `__dict__` as an insertion-ordered association
list (each class initializes every attribute exactly once). -/
abbrev Obj := List (String × PyVal)

/-- Python `getattr`: first binding of the attribute, if any. -/
def getAttr (o : Obj) (k : String) : Option PyVal :=
  (o.find? (fun p => p.1 == k)).map (fun p => p.2)

/-- Attribute value with the `None` object standing for a missing binding. -/
def getAttrD (o : Obj) (k : String) : PyVal :=
  (getAttr o k).getD .pyNone

/-- Python `setattr` on an existing attribute: replace its binding. -/
def setAttr (o : Obj) (k : String) (v : PyVal) : Obj :=
  o.map (fun p => if p.1 == k then (p.1, v) else p)

/-- One iteration of the `setattrs_from_xml` loop: if the object has an
attribute named like the child's tag, decode the child by the attribute's
current type (`bool`/`int`/`float`/`str`/`list`, in the source's `isinstance`
order) and store it; any other type falls back to the identity function,
storing the raw element.  A child with no matching attribute is only logged.
`none` models an uncaught decode exception (`ValueError`). -/
def applyChild (o : Obj) (e : Element) : Option Obj :=
  match getAttr o e.tag with
  | none => some o
  | some cur =>
      match cur with
      | .bool _ => some (setAttr o e.tag (.bool (parse_bool e)))
      | .int _ => (parse_int e).map (fun n => setAttr o e.tag (.int n))
      | .float _ => (parse_float e).map (fun q => setAttr o e.tag (.float q))
      | .str _ => some (setAttr o e.tag (.str (parse_str e)))
      | .list _ => some (setAttr o e.tag (.list (parse_list e)))
      | _ => some (setAttr o e.tag (.elem e))

/-- Model of `setattrs_from_xml(obj, xml)`: fold `applyChild` over the
children of `xml` in document order. -/
def setattrs_from_xml (o : Obj) (xml : Element) : Option Obj :=
  xml.children.foldlM applyChild o

/-- Defaults set by `VersionInfo.__init__` (all integer zero). -/
def versionInfoDefaults : Obj :=
  [("major", .int 0), ("minor", .int 0), ("release", .int 0)]

/-- Integer attribute of a decoded object, zero when absent or non-integer. -/
def getIntAttr (o : Obj) (k : String) : Int :=
  match getAttr o k with
  | some (.int n) => n
  | _ => 0

/-- Model of `VersionInfo.parse`: generic decode over the defaults, then the
three integer fields. -/
def versionInfoParse (e : Element) : Option VersionInfo :=
  (setattrs_from_xml versionInfoDefaults e).map
    (fun o => ⟨getIntAttr o "major", getIntAttr o "minor",
      getIntAttr o "release"⟩)

/-- Defaults set by `CcStatus.__init__`, in source order. -/
def ccStatusDefaults : Obj :=
  [("network_status", .int (-1)),
   ("ams_password_error", .bool false),
   ("manager_must_quit", .bool false),
   ("task_suspend_reason", .int (-1)),
   ("task_mode", .int (-1)),
   ("task_mode_perm", .int (-1)),
   ("task_mode_delay", .float 0),
   ("network_suspend_reason", .int (-1)),
   ("network_mode", .int (-1)),
   ("network_mode_perm", .int (-1)),
   ("network_mode_delay", .float 0),
   ("gpu_suspend_reason", .int (-1)),
   ("gpu_mode", .int (-1)),
   ("gpu_mode_perm", .int (-1)),
   ("gpu_mode_delay", .float 0),
   ("disallow_attach", .bool false),
   ("simple_gui_only", .bool false)]

/-- Defaults set by `Project.__init__`, in source order. -/
def projectDefaults : Obj :=
  [("master_url", .str ""),
   ("project_name", .str ""),
   ("symstore", .pyNone),
   ("user_name", .str ""),
   ("team_name", .str ""),
   ("host_venue", .pyNone),
   ("email_hash", .str ""),
   ("cross_project_id", .str ""),
   ("external_cpid", .str ""),
   ("cpid_time", .float 0),
   ("user_total_credit", .float 0),
   ("user_expavg_credit", .float 0),
   ("user_create_time", .float 0),
   ("rpc_seqno", .int 0),
   ("userid", .int 0),
   ("teamid", .int 0),
   ("hostid", .int 0),
   ("host_total_credit", .float 0),
   ("host_expavg_credit", .float 0),
   ("host_create_time", .float 0),
   ("min_rpc_time", .float 0),
   ("next_rpc_time", .float 0),
   ("nrpc_failures", .pyNone),
   ("master_fetch_failures", .pyNone),
   ("rec", .float 0),
   ("rec_time", .float 0),
   ("resource_share", .float 0),
   ("desired_disk_usage", .float 0),
   ("duration_correction_factor", .float 0),
   ("sched_rpc_pending", .int 0),
   ("send_time_stats_log", .int 0),
   ("send_job_log", .int 0),
   ("njobs_success", .int 0),
   ("njobs_error", .int 0),
   ("elapsed_time", .float 0),
   ("last_rpc_time", .float 0),
   ("dont_use_dcf", .pyNone),
   ("rsc_backoff_time", .pyNone),
   ("rsc_backoff_interval", .pyNone),
   ("dont_request_more_work", .pyNone),
   ("verify_files_on_app_start", .pyNone),
   ("gui_urls", .list []),
   ("sched_priority", .float 0),
   ("project_files_downloaded_time", .float 0),
   ("project_dir", .str ""),
   ("venue", .pyNone)]

/-- Model of `Project.parse`: the generic decode only. -/
def projectParse (xml : Element) : Option Obj :=
  setattrs_from_xml projectDefaults xml

/-- Defaults set by `Result.__init__`, in source order.  The enumeration-typed
fields hold the integer codes of their defaults (`ResultState.NEW`,
`Process.UNINITIALIZED`, `CpuSched.UNINITIALIZED`). -/
def resultDefaults : Obj :=
  [("name", .str ""),
   ("wu_name", .str ""),
   ("version_num", .int 0),
   ("plan_class", .str ""),
   ("project_url", .str ""),
   ("report_deadline", .float 0),
   ("received_time", .float 0),
   ("ready_to_report", .bool false),
   ("got_server_ack", .bool false),
   ("final_cpu_time", .float 0),
   ("final_elapsed_time", .float 0),
   ("state", .int 0),
   ("estimated_cpu_time_remaining", .float 0),
   ("exit_status", .int 0),
   ("suspended_via_gui", .bool false),
   ("project_suspended_via_gui", .bool false),
   ("edf_scheduled", .bool false),
   ("coproc_missing", .bool false),
   ("scheduler_wait", .bool false),
   ("scheduler_wait_reason", .str ""),
   ("network_wait", .bool false),
   ("resources", .str ""),
   ("active_task", .bool false),
   ("active_task_state", .int 0),
   ("app_version_num", .int 0),
   ("slot", .int (-1)),
   ("pid", .int 0),
   ("scheduler_state", .int 0),
   ("checkpoint_cpu_time", .float 0),
   ("current_cpu_time", .float 0),
   ("fraction_done", .float 0),
   ("elapsed_time", .float 0),
   ("swap_size", .int 0),
   ("working_set_size_smoothed", .float 0),
   ("too_large", .bool false),
   ("needs_shmem", .bool false),
   ("graphics_exec_path", .str ""),
   ("web_graphics_url", .str ""),
   ("remote_desktop_addr", .str ""),
   ("slot_path", .str ""),
   ("completed_time", .float 0),
   ("report_immediately", .bool false),
   ("working_set_size", .int 0),
   ("page_fault_rate", .float 0),
   ("signal", .int 0),
   ("app", .pyNone),
   ("wup", .pyNone),
   ("project", .pyNone),
   ("avp", .pyNone),
   ("progress_rate", .pyNone),
   ("platform", .pyNone),
   ("bytes_sent", .pyNone),
   ("bytes_received", .pyNone)]

/-- Python truth test `v != 0` on an attribute value. -/
def pyNeZero : PyVal → Bool
  | .bool b => b
  | .int n => n != 0
  | .float q => q != 0
  | _ => true

/-- Python test `v == 0` on an attribute value. -/
def pyEqZero : PyVal → Bool
  | .bool b => !b
  | .int n => n == 0
  | .float q => q == 0
  | _ => false

/-- First direct child with the given tag (`ElementTree.Element.find`). -/
def findChild (xml : Element) (t : String) : Option Element :=
  xml.children.find? (fun e => e.tag == t)

/-- The old-client compatibility shim at the end of `Result.parse`: if
`current_cpu_time != 0 and elapsed_time == 0`, copy `current_cpu_time` into
`elapsed_time`; then, independently, the same for the final pair. -/
def resultShim (r : Obj) : Obj :=
  let r1 :=
    if pyNeZero (getAttrD r "current_cpu_time") &&
        pyEqZero (getAttrD r "elapsed_time") then
      setAttr r "elapsed_time" (getAttrD r "current_cpu_time")
    else r
  if pyNeZero (getAttrD r1 "final_cpu_time") &&
      pyEqZero (getAttrD r1 "final_elapsed_time") then
    setAttr r1 "final_elapsed_time" (getAttrD r1 "final_cpu_time")
  else r1

/-- The decoding phase of `Result.parse`: the generic decode over the
defaults, then the `<active_task>` handling (absent: `active_task := False`;
present: `active_task := True` and a second generic decode over the
sub-tree's children). -/
def resultDecodePhase (xml : Element) : Option Obj := do
  let r ← setattrs_from_xml resultDefaults xml
  match findChild xml "active_task" with
  | none => pure (setAttr r "active_task" (.bool false))
  | some sub => setattrs_from_xml (setAttr r "active_task" (.bool true)) sub

/-- Model of `Result.parse`: decode, then apply the compatibility shim, then
return. -/
def resultParse (xml : Element) : Option Obj :=
  (resultDecodePhase xml).map resultShim

/-- Exception classes relevant at the client boundary: `socket.error`
raised by the transport, and `ValueError` raised by value decoding. -/
inductive PyErr where
  | socket
  | value

/-- The client's environment: whether `rpc.connect` succeeds, the reply the
transport returns for each request fragment (`none` models a raised
`socket.error`), and the content of `GUI_RPC_PASSWD_FILE` (`none` models an
unreadable file: missing or permission denied). -/
structure World where
  connectOk : Bool
  reply : String → Option Element
  passwdFile : Option String

/-- Mutable state of a `BoincClient` instance. -/
structure Client where
  hostname : String
  passwd : Option String
  version : Option VersionInfo
  authorized : Bool
  connected : Bool

/-- Model of `read_gui_rpc_password()`: return the file content with one
trailing newline trimmed (`buf[:-1] if buf.endswith("\n") else buf`); an
unreadable file gives `None`. -/
def read_gui_rpc_password (file : Option String) : Option String :=
  file.map (fun buf =>
    if buf.data.getLast? == some '\n' then String.mk buf.data.dropLast
    else buf)

/-- Python `"%s" % v` for a string-or-None value (`None` prints as "None"). -/
def pyStrOpt : Option String → String
  | none => "None"
  | some s => s

/-- The digest sent by `authorize`:
`hashlib.md5(("%s%s" % (nonce, password)).encode("utf-8")).hexdigest().lower()`
where `nonce` is the `auth1` reply's text. -/
def authDigest (nonce password : Option String) : String :=
  pyLower (md5Hex (pyStrOpt nonce ++ pyStrOpt password))

/-- The `auth2` request fragment carrying a digest. -/
def auth2Request (digest : String) : String :=
  "<auth2><nonce_hash>" ++ digest ++ "</nonce_hash></auth2>"

/-- Password resolution at the top of `BoincClient.authorize`: read the
local password file only when no password was supplied and the hostname is
the empty string (`password is None and not self.hostname`); an unreadable
file falls back to the empty-string password (`read_gui_rpc_password() or ""`). -/
def resolvePassword (w : World) (hostname : String) (passwd : Option String) :
    Option String :=
  if passwd.isNone && hostname == "" then
    some ((read_gui_rpc_password w.passwdFile).getD "")
  else passwd

/-- Model of `BoincClient.authorize(password)`: resolve the password, then
run the two-step handshake; the result is whether the `auth2` reply is
tagged "authorized".  An error is a `socket.error` raised by `rpc.call`. -/
def authorize (w : World) (hostname : String) (passwd : Option String) :
    Except PyErr Bool :=
  let password := resolvePassword w hostname passwd
  match w.reply "<auth1/>" with
  | none => .error .socket
  | some r1 =>
      match w.reply (auth2Request (authDigest r1.text password)) with
      | none => .error .socket
      | some r2 => .ok (r2.tag == "authorized")

/-- Model of `BoincClient.exchange_versions()`:
`VersionInfo.parse(self.rpc.call("<exchange_versions/>"))`. -/
def exchange_versions (w : World) : Except PyErr VersionInfo :=
  match w.reply "<exchange_versions/>" with
  | none => .error .socket
  | some e =>
      match versionInfoParse e with
      | none => .error .value
      | some v => .ok v

/-- Model of `BoincClient.connect()`.  Only the `rpc.connect` call is guarded
by `try/except socket.error`; an exception raised later (by `authorize` or
`exchange_versions`) propagates, carrying the client state current at that
point (`.error`). -/
def connect (w : World) (c : Client) : Except (PyErr × Client) Client :=
  if !w.connectOk then .ok { c with connected := false }
  else
    let c1 := { c with connected := true }
    match authorize w c1.hostname c1.passwd with
    | .error e => .error (e, c1)
    | .ok auth =>
        let c2 := { c1 with authorized := auth }
        match exchange_versions w with
        | .error e => .error (e, c2)
        | .ok v => .ok { c2 with version := some v }

/-- The query half of `get_cc_status()`: issue `<get_cc_status/>`; a
`socket.error` there is caught, demoting `connected` and returning `None`
(no result); a decode error propagates. -/
def ccQuery (w : World) (c : Client) :
    Except (PyErr × Client) (Client × Option Obj) :=
  match w.reply "<get_cc_status/>" with
  | none => .ok ({ c with connected := false }, none)
  | some r =>
      match setattrs_from_xml ccStatusDefaults r with
      | none => .error (.value, c)
      | some s => .ok (c, some s)

/-- Model of `BoincClient.get_cc_status()`: connect first when not connected
(errors from `connect` propagate), then run the status query. -/
def get_cc_status (w : World) (c : Client) :
    Except (PyErr × Client) (Client × Option Obj) :=
  if c.connected then ccQuery w c
  else
    match connect w c with
    | .error e => .error e
    | .ok c1 => ccQuery w c1

/-- Python truth test on an `ElementTree.Element`: an element with no
children is falsy. -/
def pyTruthyElem (e : Element) : Bool :=
  !e.children.isEmpty

/-- The `for item in list(reply): results.append(X.parse(item))` loop: decode
each child in document order; `none` models a decode exception aborting the
loop. -/
def decodeEach (f : Element → Option Obj) : List Element → Option (List Obj)
  | [] => some []
  | e :: rest =>
      match f e with
      | none => none
      | some r => (decodeEach f rest).map (fun l => r :: l)

/-- The reply handling of `get_results(active_only)`: an unexpected top-level
tag gives the empty list, otherwise each child is decoded by `Result.parse`
in document order. -/
def getResultsReply (reply : Element) : Option (List Obj) :=
  if !(reply.tag == "results") then some []
  else decodeEach resultParse reply.children

/-- The reply handling of `get_projects()`:
`if not reply or not reply.tag == "projects": return []`, otherwise each
child is decoded by `Project.parse` in document order. -/
def getProjectsReply (reply : Element) : Option (List Obj) :=
  if !pyTruthyElem reply || !(reply.tag == "projects") then some []
  else decodeEach projectParse reply.children

/-- A test environment in which every call succeeds: `auth1` yields nonce
"n1", version exchange yields 7.16.6, the status query yields a minimal
`cc_status` body, and every other request (the `auth2` step included) is
answered "authorized". -/
def wOk : World where
  connectOk := true
  reply := fun q =>
    if q == "<auth1/>" then some ⟨"nonce", some "n1", []⟩
    else if q == "<exchange_versions/>" then
      some ⟨"server_version", none,
        [⟨"major", some "7", []⟩, ⟨"minor", some "16", []⟩,
         ⟨"release", some "6", []⟩]⟩
    else if q == "<get_cc_status/>" then
      some ⟨"cc_status", none, [⟨"network_status", some "1", []⟩]⟩
    else some ⟨"authorized", none, []⟩
  passwdFile := none

/-- A test environment in which the TCP connect succeeds but every RPC call
raises `socket.error`. -/
def wCallsFail : World where
  connectOk := true
  reply := fun _ => none
  passwdFile := none

/-- A test environment like `wOk` except that the status query raises
`socket.error`. -/
def wCcFail : World where
  connectOk := true
  reply := fun q => if q == "<get_cc_status/>" then none else wOk.reply q
  passwdFile := none

/-- A test environment for the password-file policy: a readable password
file with content "filepass", an `auth1` nonce "n1", and an `auth2` reply
"authorized" exactly when the digest was computed from the unresolved `None`
password. -/
def wLoop : World where
  connectOk := true
  reply := fun q =>
    if q == "<auth1/>" then some ⟨"nonce", some "n1", []⟩
    else if q == auth2Request (authDigest (some "n1") none) then
      some ⟨"authorized", none, []⟩
    else some ⟨"unauthorized", none, []⟩
  passwdFile := some "filepass"

/-- Like `wLoop` but with a different password-file content. -/
def wLoop2 : World :=
  { wLoop with passwdFile := some "otherpass" }

/-- A freshly constructed client for `host="myhost", passwd="pw"`. -/
def cFresh : Client :=
  ⟨"myhost", some "pw", none, false, false⟩

/-- A client currently marked connected. -/
def cConn : Client :=
  ⟨"myhost", some "pw", none, true, true⟩

/-! Helper lemmas about attribute access. -/

theorem getAttr_setAttr_eq (o : Obj) (k : String) (v : PyVal)
    (h : (getAttr o k).isSome) : getAttr (setAttr o k v) k = some v := by
  induction o with
  | nil => simp [getAttr] at h
  | cons p t ih =>
      by_cases hk : p.1 == k
      · simp [getAttr, setAttr, List.find?, hk]
      · simp only [getAttr, setAttr, List.map_cons, List.find?, hk,
          if_neg] at h ⊢
        simp only [hk, Bool.false_eq_true, if_false] at h ⊢
        exact ih h

theorem getAttr_setAttr_ne (o : Obj) (k k' : String) (v : PyVal)
    (h : k' ≠ k) : getAttr (setAttr o k v) k' = getAttr o k' := by
  induction o with
  | nil => simp [getAttr, setAttr]
  | cons p t ih =>
      by_cases hk : p.1 == k
      · have hp : p.1 = k := by simpa using hk
        have hk' : (p.1 == k') = false := by
          simp [hp]
          exact fun hc => h hc.symm
        simp [getAttr, setAttr, List.find?, hk, hk'] at ih ⊢
        exact ih
      · simp only [getAttr, setAttr, List.map_cons, List.find?, hk,
          Bool.false_eq_true, if_false] at ih ⊢
        by_cases hk2 : p.1 == k'
        · simp [hk2]
        · simp [hk2] at ih ⊢
          exact ih

theorem getAttrD_setAttr_eq (o : Obj) (k : String) (v : PyVal)
    (h : (getAttr o k).isSome) : getAttrD (setAttr o k v) k = v := by
  simp [getAttrD, getAttr_setAttr_eq o k v h]

theorem getAttrD_setAttr_ne (o : Obj) (k k' : String) (v : PyVal)
    (h : k' ≠ k) : getAttrD (setAttr o k v) k' = getAttrD o k' := by
  simp [getAttrD, getAttr_setAttr_ne o k k' v h]

theorem present_of_pyEqZero (o : Obj) (k : String)
    (h : pyEqZero (getAttrD o k) = true) : (getAttr o k).isSome := by
  cases hh : getAttr o k with
  | none => simp [getAttrD, hh, pyEqZero] at h
  | some _ => simp

theorem isSome_setAttr (o : Obj) (k k' : String) (v : PyVal)
    (h : (getAttr o k').isSome) : (getAttr (setAttr o k v) k').isSome := by
  by_cases hk : k' = k
  · subst hk
    simp [getAttr_setAttr_eq o k' v h]
  · simp [getAttr_setAttr_ne o k k' v hk, h]

/-! Helper lemmas about the decode loop. -/

theorem decodeEach_length (f : Element → Option Obj) :
    ∀ l res, decodeEach f l = some res → res.length = l.length := by
  intro l
  induction l with
  | nil =>
      intro res h
      simp only [decodeEach, Option.some.injEq] at h
      subst h
      rfl
  | cons e rest ih =>
      intro res h
      simp only [decodeEach] at h
      cases hf : f e with
      | none => simp [hf] at h
      | some r =>
          simp only [hf] at h
          cases hr : decodeEach f rest with
          | none => simp [hr] at h
          | some l2 =>
              simp only [hr, Option.map_some', Option.some.injEq] at h
              subst h
              simp [ih l2 hr]

theorem decodeEach_getElem (f : Element → Option Obj) :
    ∀ l res, decodeEach f l = some res →
      ∀ i : Nat, res[i]? = (l[i]?).bind f := by
  intro l
  induction l with
  | nil =>
      intro res h i
      simp only [decodeEach, Option.some.injEq] at h
      subst h
      simp
  | cons e rest ih =>
      intro res h i
      simp only [decodeEach] at h
      cases hf : f e with
      | none => simp [hf] at h
      | some r =>
          simp only [hf] at h
          cases hr : decodeEach f rest with
          | none => simp [hr] at h
          | some l2 =>
              simp only [hr, Option.map_some', Option.some.injEq] at h
              subst h
              cases i with
              | zero => simp [hf]
              | succ j => simp [ih l2 hr j]

/-! Claim C2: boolean decoding. -/

/-- C2 (counterexample): `parse_bool` on an element whose text is the empty
string returns `False`, although the empty string neither strips-and-lowers
to "0" nor to "false"; the claim predicts `True` for it. -/
theorem parse_bool_empty_counterexample :
    parse_bool ⟨"flag", some "", []⟩ = false ∧
      pyLower (pyStrip "") ≠ "0" ∧ pyLower (pyStrip "") ≠ "false" :=
  ⟨rfl, by decide, by decide⟩

/-- C2 (amended): boolean decoding: missing text decodes to true; the empty
string (falsy in Python) decodes to false; any other text decodes to false
exactly when it strips and lowercases to "0" or "false", and otherwise to
true. -/
theorem parse_bool_spec :
    (∀ tg ch, parse_bool ⟨tg, none, ch⟩ = true) ∧
    (∀ tg ch, parse_bool ⟨tg, some "", ch⟩ = false) ∧
    (∀ tg ch tx, tx ≠ "" → pyLower (pyStrip tx) ≠ "0" →
      pyLower (pyStrip tx) ≠ "false" → parse_bool ⟨tg, some tx, ch⟩ = true) ∧
    (∀ tg ch tx, pyLower (pyStrip tx) = "0" ∨ pyLower (pyStrip tx) = "false" →
      parse_bool ⟨tg, some tx, ch⟩ = false) ∧
    parse_bool ⟨"b", some "0", []⟩ = false ∧
    parse_bool ⟨"b", some "False", []⟩ = false ∧
    parse_bool ⟨"b", some "1", []⟩ = true := by
  refine ⟨fun tg ch => rfl, fun tg ch => rfl, ?_, ?_,
    by decide, by decide, by decide⟩
  · intro tg ch tx h1 h2 h3
    simp [parse_bool, h1, h2, h3]
  · intro tg ch tx h
    rcases h with h | h <;> simp [parse_bool, h]

/-- Witness for `parse_bool_spec`: concrete instantiations of the guarded
clauses. -/
theorem parse_bool_spec_witness :
    parse_bool ⟨"b", some "yes", []⟩ = true ∧
      parse_bool ⟨"b", some " FALSE ", []⟩ = false :=
  ⟨parse_bool_spec.2.2.1 "b" [] "yes" (by decide) (by decide) (by decide),
   parse_bool_spec.2.2.2.1 "b" [] " FALSE " (Or.inr (by decide))⟩

/-! Claim C9: the VersionInfo ordering. -/

theorem viEq_iff (a b : VersionInfo) :
    viEq a b = true ↔
      a.major = b.major ∧ a.minor = b.minor ∧ a.release = b.release := by
  simp [viEq, viTuple, Prod.ext_iff]

theorem viGt_iff (a b : VersionInfo) :
    viGt a b = true ↔
      (b.major < a.major ∨ (a.major = b.major ∧
        (b.minor < a.minor ∨ (a.minor = b.minor ∧ b.release < a.release)))) := by
  simp [viGt, Bool.or_eq_true, Bool.and_eq_true, decide_eq_true_eq, beq_iff_eq]

theorem viLt_iff (a b : VersionInfo) :
    viLt a b = true ↔
      (a.major < b.major ∨ (a.major = b.major ∧
        (a.minor < b.minor ∨ (a.minor = b.minor ∧ a.release < b.release)))) := by
  have h1 : viLt a b = true ↔ (¬viGt a b = true ∧ ¬viEq a b = true) := by
    simp [viLt]
  rw [h1, viGt_iff, viEq_iff]
  omega

/-- C9: `VersionInfo` comparison is a total order on (major, minor, release)
tuples: equality is reflexive, the strict order derived by
`functools.total_ordering` is transitive, the spec's concrete chain holds,
and comparing against a value of an incompatible type gives the defined
"unsupported" outcome (`__eq__` is `False`, `__gt__` is `NotImplemented`),
never undefined behavior. -/
theorem versioninfo_total_order :
    (∀ v : VersionInfo, viEq v v = true) ∧
    (∀ a b c : VersionInfo, viLt a b = true → viLt b c = true →
      viLt a c = true) ∧
    (viLt ⟨1, 2, 3⟩ ⟨1, 3, 0⟩ = true ∧ viLt ⟨1, 3, 0⟩ ⟨2, 0, 0⟩ = true ∧
      viEq ⟨1, 2, 3⟩ ⟨1, 2, 3⟩ = true) ∧
    (∀ (a : VersionInfo) (n : Int) (s : String),
      viGtDyn a (.intObj n) = none ∧ viEqDyn a (.intObj n) = false ∧
      viGtDyn a (.strObj s) = none ∧ viEqDyn a (.strObj s) = false) := by
  refine ⟨?_, ?_, ⟨by decide, by decide, by decide⟩, ?_⟩
  · intro v
    simp [viEq_iff]
  · intro a b c h1 h2
    rw [viLt_iff] at *
    omega
  · intro a n s
    exact ⟨rfl, rfl, rfl, rfl⟩

/-- Witness for `versioninfo_total_order`: transitivity applied along the
spec's concrete chain. -/
theorem versioninfo_total_order_witness :
    viLt ⟨1, 2, 3⟩ ⟨2, 0, 0⟩ = true :=
  versioninfo_total_order.2.1 ⟨1, 2, 3⟩ ⟨1, 3, 0⟩ ⟨2, 0, 0⟩
    (by decide) (by decide)

/-! Claim C10: the identity fallback of the generic decoder. -/

/-- C10: a field whose current value is the `None` unset sentinel is decoded
by the identity fallback of `setattrs_from_xml`: the raw XML element object
itself is stored, not a parsed scalar; instantiated on `Project.symstore`,
`Project.venue` and `Result.platform`. -/
theorem unset_default_stores_raw_element :
    (∀ (o : Obj) (e : Element), getAttr o e.tag = some .pyNone →
      applyChild o e = some (setAttr o e.tag (.elem e))) ∧
    (∀ e : Element, e.tag = "symstore" →
      setattrs_from_xml projectDefaults ⟨"project", none, [e]⟩ =
        some (setAttr projectDefaults "symstore" (.elem e))) ∧
    (∀ e : Element, e.tag = "venue" →
      setattrs_from_xml projectDefaults ⟨"project", none, [e]⟩ =
        some (setAttr projectDefaults "venue" (.elem e))) ∧
    (∀ e : Element, e.tag = "platform" →
      setattrs_from_xml resultDefaults ⟨"result", none, [e]⟩ =
        some (setAttr resultDefaults "platform" (.elem e))) := by
  have h1 : ∀ (o : Obj) (e : Element), getAttr o e.tag = some .pyNone →
      applyChild o e = some (setAttr o e.tag (.elem e)) := by
    intro o e h
    simp [applyChild, h]
  refine ⟨h1, ?_, ?_, ?_⟩ <;> intro e h
  · have h2 := h1 projectDefaults e (by rw [h]; rfl)
    rw [h] at h2
    simp [setattrs_from_xml, List.foldlM, h2]
  · have h2 := h1 projectDefaults e (by rw [h]; rfl)
    rw [h] at h2
    simp [setattrs_from_xml, List.foldlM, h2]
  · have h2 := h1 resultDefaults e (by rw [h]; rfl)
    rw [h] at h2
    simp [setattrs_from_xml, List.foldlM, h2]

/-- Witness for `unset_default_stores_raw_element`: a concrete `symstore`
child is stored as the raw element. -/
theorem unset_default_stores_raw_element_witness :
    setattrs_from_xml projectDefaults
      ⟨"project", none, [⟨"symstore", some "http://x", []⟩]⟩ =
      some (setAttr projectDefaults "symstore"
        (.elem ⟨"symstore", some "http://x", []⟩)) :=
  unset_default_stores_raw_element.2.1 ⟨"symstore", some "http://x", []⟩ rfl

/-! Claim C1: the enumeration name lookup. -/

theorem enumName_cpuSched_neg : ∀ fuel, enumName .cpuSched fuel (-1) = none := by
  intro fuel
  induction fuel with
  | zero => rfl
  | succ f ih => exact ih

theorem enumName_resultState_neg :
    ∀ fuel, enumName .resultState fuel (-1) = none := by
  intro fuel
  induction fuel with
  | zero => rfl
  | succ f ih => exact ih

theorem enumName_process_neg : ∀ fuel, enumName .process fuel (-1) = none := by
  intro fuel
  induction fuel with
  | zero => rfl
  | succ f ih => exact ih

theorem enumName_runMode_neg : ∀ fuel, enumName .runMode fuel (-1) = none := by
  intro fuel
  induction fuel with
  | zero => rfl
  | succ f ih => exact ih

theorem enumName_networkStatus_neg :
    ∀ fuel, enumName .networkStatus fuel (-1) = some "unknown" := by
  intro fuel
  cases fuel with
  | zero => rfl
  | succ f => rfl

theorem enumName_suspendReason_neg :
    ∀ fuel, enumName .suspendReason fuel (-1) = some "unknown reason" := by
  intro fuel
  cases fuel with
  | zero => rfl
  | succ f => rfl

/-- C1 (code behaviour at the failing inputs): for the enumerations whose
`name` override does not intercept the `UNKNOWN` sentinel (`CpuSched`,
`ResultState`, `Process` have no override at all, `RunMode` only handles
`AUTO`), the lookup of `-1` itself and of any code outside the known set
never returns, for any recursion bound: `Enum.name`'s fallback
`cls.name(Enum.UNKNOWN)` rescans only the subclass's own `__dict__`, which
does not contain `UNKNOWN`, so the call recurses forever (a `RecursionError`
in CPython) instead of producing the UNKNOWN label.  `NetworkStatus` and
`SuspendReason`, whose overrides do intercept `-1`, resolve out-of-range
codes to their unknown labels as the claim states. -/
theorem enum_unknown_lookup_diverges :
    (∀ fuel, enumName .cpuSched fuel (-1) = none) ∧
    (∀ fuel, enumName .cpuSched fuel 7 = none) ∧
    (∀ fuel, enumName .resultState fuel 99 = none) ∧
    (∀ fuel, enumName .process fuel (-1) = none) ∧
    (∀ fuel, enumName .runMode fuel 0 = none) ∧
    (∀ fuel, enumName .networkStatus (fuel + 1) 99 = some "unknown") ∧
    (∀ fuel, enumName .suspendReason (fuel + 1) 4100 = some "unknown reason") := by
  refine ⟨enumName_cpuSched_neg, ?_, ?_, enumName_process_neg, ?_, ?_, ?_⟩
  · intro fuel
    cases fuel with
    | zero => rfl
    | succ f => exact enumName_cpuSched_neg f
  · intro fuel
    cases fuel with
    | zero => rfl
    | succ f => exact enumName_resultState_neg f
  · intro fuel
    cases fuel with
    | zero => rfl
    | succ f => exact enumName_runMode_neg f
  · intro fuel
    exact enumName_networkStatus_neg fuel
  · intro fuel
    exact enumName_suspendReason_neg fuel

/-! Claim C3: the Result compatibility shim. -/

/-- C3: `Result.parse` applies the shim after the whole decoding phase and
before returning; the shim copies `current_cpu_time` into `elapsed_time`
whenever the former is nonzero and the latter zero, and independently
(regardless of the non-final pair) copies `final_cpu_time` into
`final_elapsed_time` under the analogous condition; the spec's concrete
42.0 example decodes accordingly. -/
theorem result_parse_shim_spec :
    (∀ xml, resultParse xml = (resultDecodePhase xml).map resultShim) ∧
    (∀ r : Obj, pyNeZero (getAttrD r "current_cpu_time") = true →
      pyEqZero (getAttrD r "elapsed_time") = true →
      getAttrD (resultShim r) "elapsed_time" =
        getAttrD r "current_cpu_time") ∧
    (∀ r : Obj, pyNeZero (getAttrD r "final_cpu_time") = true →
      pyEqZero (getAttrD r "final_elapsed_time") = true →
      getAttrD (resultShim r) "final_elapsed_time" =
        getAttrD r "final_cpu_time") ∧
    (resultParse ⟨"result", none, [⟨"current_cpu_time", some "42.0", []⟩]⟩).map
      (fun r => getAttrD r "elapsed_time") = some (.float 42) := by
  refine ⟨fun xml => rfl, ?_, ?_, rfl⟩
  · intro r h1 h2
    have hp := present_of_pyEqZero r "elapsed_time" h2
    have hset : getAttrD (setAttr r "elapsed_time"
        (getAttrD r "current_cpu_time")) "elapsed_time" =
        getAttrD r "current_cpu_time" :=
      getAttrD_setAttr_eq r "elapsed_time" _ hp
    simp only [resultShim, h1, h2, Bool.and_self, if_true]
    split
    · exact (getAttrD_setAttr_ne _ "final_elapsed_time" "elapsed_time" _
        (by decide)).trans hset
    · exact hset
  · intro r h1 h2
    simp only [resultShim]
    split
    · have e1 : getAttrD (setAttr r "elapsed_time"
          (getAttrD r "current_cpu_time")) "final_cpu_time" =
          getAttrD r "final_cpu_time" :=
        getAttrD_setAttr_ne r "elapsed_time" "final_cpu_time" _ (by decide)
      have e2 : getAttrD (setAttr r "elapsed_time"
          (getAttrD r "current_cpu_time")) "final_elapsed_time" =
          getAttrD r "final_elapsed_time" :=
        getAttrD_setAttr_ne r "elapsed_time" "final_elapsed_time" _ (by decide)
      have hp : (getAttr (setAttr r "elapsed_time"
          (getAttrD r "current_cpu_time")) "final_elapsed_time").isSome :=
        isSome_setAttr r "elapsed_time" "final_elapsed_time" _
          (present_of_pyEqZero r "final_elapsed_time" h2)
      rw [e1, e2, h1, h2]
      simp only [Bool.and_self, if_true]
      rw [getAttrD_setAttr_eq _ _ _ hp]
    · have hp := present_of_pyEqZero r "final_elapsed_time" h2
      rw [h1, h2]
      simp only [Bool.and_self, if_true]
      exact getAttrD_setAttr_eq r _ _ hp

/-- Witness for `result_parse_shim_spec`: both rules applied to a concrete
object with `current_cpu_time = 42.0`, `final_cpu_time = 7.0` and both
elapsed fields zero. -/
theorem result_parse_shim_spec_witness :
    getAttrD (resultShim
      [("current_cpu_time", .float 42), ("elapsed_time", .float 0),
       ("final_cpu_time", .float 7), ("final_elapsed_time", .float 0)])
      "elapsed_time" = .float 42 ∧
    getAttrD (resultShim
      [("current_cpu_time", .float 42), ("elapsed_time", .float 0),
       ("final_cpu_time", .float 7), ("final_elapsed_time", .float 0)])
      "final_elapsed_time" = .float 7 :=
  ⟨(result_parse_shim_spec.2.1
      [("current_cpu_time", .float 42), ("elapsed_time", .float 0),
       ("final_cpu_time", .float 7), ("final_elapsed_time", .float 0)]
      rfl rfl).trans rfl,
   (result_parse_shim_spec.2.2.1
      [("current_cpu_time", .float 42), ("elapsed_time", .float 0),
       ("final_cpu_time", .float 7), ("final_elapsed_time", .float 0)]
      rfl rfl).trans rfl⟩

/-! Claim C4: the authentication digest and outcome. -/

set_option maxRecDepth 40000 in
/-- C4: the digest sent in the `auth2` request is the lowercase hexadecimal
MD5 of `nonce ++ password`; on nonce "abc" and password "pw" it is the MD5
of "abcpw"; and `authorize` returns `True` exactly when the `auth2` reply's
tag is "authorized". -/
theorem auth_digest_spec :
    (∀ n p : String, authDigest (some n) (some p) =
      pyLower (hexOfBytes (md5Bytes (utf8Bytes (n ++ p))))) ∧
    authDigest (some "abc") (some "pw") =
      "71605ab39e19fe87034aee29cf2957e4" ∧
    (∀ (w : World) (h : String) (p : Option String) (r1 r2 : Element),
      w.reply "<auth1/>" = some r1 →
      w.reply (auth2Request (authDigest r1.text (resolvePassword w h p))) =
        some r2 →
      authorize w h p = .ok (r2.tag == "authorized") ∧
      (authorize w h p = .ok true ↔ r2.tag = "authorized")) := by
  refine ⟨fun n p => rfl, by decide, ?_⟩
  intro w h p r1 r2 h1 h2
  have ha : authorize w h p = .ok (r2.tag == "authorized") := by
    simp [authorize, h1, h2]
  refine ⟨ha, ?_⟩
  rw [ha]
  simp [Except.ok.injEq, beq_iff_eq]

set_option maxRecDepth 40000 in
/-- Witness for `auth_digest_spec`: in the all-success environment the
handshake authorizes. -/
theorem auth_digest_spec_witness :
    authorize wOk "myhost" (some "pw") = .ok true :=
  ((auth_digest_spec.2.2 wOk "myhost" (some "pw")
      ⟨"nonce", some "n1", []⟩ ⟨"authorized", none, []⟩ rfl rfl).2).mpr rfl

/-! Claim C5: the connect boundary. -/

/-- C5 (counterexample): with the TCP connect succeeding but the first RPC
call of the handshake raising `socket.error`, `connect()` propagates the
exception to its caller, and at that moment `connected` is `True`, not
`False`. -/
theorem connect_counterexample :
    connect wCallsFail cFresh =
      .error (.socket, { cFresh with connected := true }) := rfl

/-- C5 (amended): a transport failure while opening the transport is
swallowed, returning normally with `connected = False`; a transport failure
during the subsequent handshake or version exchange propagates as an
exception with `connected` still `True`; on full success `connect()` stores
the authorization outcome and the negotiated version. -/
theorem connect_spec :
    (∀ w c, w.connectOk = false →
      connect w c = .ok { c with connected := false }) ∧
    (∀ w c e, w.connectOk = true →
      authorize w c.hostname c.passwd = .error e →
      connect w c = .error (e, { c with connected := true })) ∧
    (∀ w c auth e, w.connectOk = true →
      authorize w c.hostname c.passwd = .ok auth →
      exchange_versions w = .error e →
      connect w c =
        .error (e, { c with connected := true, authorized := auth })) ∧
    (∀ w c auth v, w.connectOk = true →
      authorize w c.hostname c.passwd = .ok auth →
      exchange_versions w = .ok v →
      connect w c =
        .ok { c with connected := true, authorized := auth, version := some v }) := by
  refine ⟨?_, ?_, ?_, ?_⟩
  · intro w c h
    simp [connect, h]
  · intro w c e h1 h2
    simp [connect, h1, h2]
  · intro w c auth e h1 h2 h3
    simp [connect, h1, h2, h3]
  · intro w c auth v h1 h2 h3
    simp [connect, h1, h2, h3]

set_option maxRecDepth 40000 in
/-- Witness for `connect_spec`: the all-success environment connects,
authorizes and stores version 7.16.6. -/
theorem connect_spec_witness :
    connect wOk cFresh =
      .ok { cFresh with connected := true, authorized := true, version := some ⟨7, 16, 6⟩ } :=
  connect_spec.2.2.2 wOk cFresh true ⟨7, 16, 6⟩ rfl rfl rfl

/-! Claim C6: the local password file policy. -/

set_option maxRecDepth 40000 in
/-- C6 (counterexample): with no explicit password and the loopback target
"127.0.0.1", the digest the client sends is the one computed from the
unresolved `None` password: the readable password file is ignored (as the
distinct digests show, neither the file content nor the empty-string
fallback is used), because the code consults the file only when the
configured hostname is the empty string. -/
theorem password_file_counterexample :
    authorize wLoop "127.0.0.1" none = .ok true ∧
    authorize wLoop2 "127.0.0.1" none = .ok true ∧
    wLoop.passwdFile = some "filepass" ∧
    authDigest (some "n1") none ≠ authDigest (some "n1") (some "filepass") ∧
    authDigest (some "n1") none ≠ authDigest (some "n1") (some "") :=
  ⟨rfl, rfl, rfl, by decide, by decide⟩

/-- C6 (amended): the password file is consulted exactly when no password
was supplied and the configured hostname is the empty string (the client's
designation of the local host); a loopback host given by name or address
does not trigger the read, and the file content then cannot influence the
handshake.  When consulted, one trailing newline is trimmed from the file
content, and an unreadable file falls back to the empty-string password. -/
theorem password_file_policy :
    (∀ (w : World) (h : String) (p : Option String),
      (p.isNone && (h == "")) = false → resolvePassword w h p = p) ∧
    (∀ (w : World) (f1 f2 : Option String) (h : String) (p : Option String),
      (p.isNone && (h == "")) = false →
      authorize { w with passwdFile := f1 } h p =
        authorize { w with passwdFile := f2 } h p) ∧
    (∀ w : World, resolvePassword w "" none =
      some ((read_gui_rpc_password w.passwdFile).getD "")) ∧
    read_gui_rpc_password none = none ∧
    (∀ w : World, w.passwdFile = none → resolvePassword w "" none = some "") ∧
    (∀ s : String, read_gui_rpc_password (some (s ++ "\n")) = some s) ∧
    read_gui_rpc_password (some "secret") = some "secret" ∧
    read_gui_rpc_password (some "secret\n\n") = some "secret\n" := by
  refine ⟨?_, ?_, fun w => rfl, rfl, ?_, ?_, by decide, by decide⟩
  · intro w h p hc
    simp [resolvePassword, hc]
  · intro w f1 f2 h p hc
    simp [authorize, resolvePassword, hc]
  · intro w hw
    simp [resolvePassword, read_gui_rpc_password, hw]
  · intro s
    have hd : (s ++ "\n").data = s.data ++ ['\n'] := by
      simp [String.data_append]
    simp [read_gui_rpc_password, hd, List.getLast?_concat,
      List.dropLast_concat]

/-- Witness for `password_file_policy`: the resolution is the identity for
an explicitly named loopback host without a password and for an explicit
password. -/
theorem password_file_policy_witness :
    resolvePassword wLoop "localhost" none = none ∧
    resolvePassword wLoop "myhost" (some "pw") = some "pw" ∧
    authorize { wOk with passwdFile := some "a" } "localhost" none =
      authorize { wOk with passwdFile := some "b" } "localhost" none :=
  ⟨password_file_policy.1 wLoop "localhost" none (by decide),
   password_file_policy.1 wLoop "myhost" (some "pw") (by decide),
   password_file_policy.2.1 wOk (some "a") (some "b") "localhost" none
     (by decide)⟩

/-! Claim C7: the status query boundary. -/

/-- C7: `get_cc_status()` first attempts `connect()` when the client is not
currently connected, then issues the status query; a `socket.error` raised
by the query is caught, demoting `connected` to `False` and yielding no
result instead of raising past the client boundary. -/
theorem get_cc_status_spec :
    (∀ w c, c.connected = true → w.reply "<get_cc_status/>" = none →
      get_cc_status w c = .ok ({ c with connected := false }, none)) ∧
    (∀ w c, c.connected = false →
      get_cc_status w c =
        (match connect w c with
         | .error e => .error e
         | .ok c1 => ccQuery w c1)) ∧
    (∀ w c c1, c.connected = false → connect w c = .ok c1 →
      w.reply "<get_cc_status/>" = none →
      get_cc_status w c = .ok ({ c1 with connected := false }, none)) := by
  refine ⟨?_, ?_, ?_⟩
  · intro w c h1 h2
    simp [get_cc_status, ccQuery, h1, h2]
  · intro w c h1
    simp [get_cc_status, h1]
  · intro w c c1 h1 h2 h3
    simp [get_cc_status, ccQuery, h1, h2, h3]

set_option maxRecDepth 40000 in
/-- Witness for `get_cc_status_spec`: a failing status query demotes a
connected client, and likewise after an initial auto-connect. -/
theorem get_cc_status_spec_witness :
    get_cc_status wCcFail cConn = .ok ({ cConn with connected := false }, none) ∧
    get_cc_status wCcFail cFresh =
      .ok ({ cFresh with connected := false, authorized := true, version := some ⟨7, 16, 6⟩ }, none) :=
  ⟨get_cc_status_spec.1 wCcFail cConn rfl rfl,
   get_cc_status_spec.2.2 wCcFail cFresh
     { cFresh with connected := true, authorized := true, version := some ⟨7, 16, 6⟩ } rfl rfl rfl⟩

/-! Claim C8: collection reply decoding. -/

/-- C8: `get_results(active_only)` and `get_projects()` return the empty
list whenever the reply's top-level tag differs from the expected collection
tag, and otherwise return one decoded entity per child of the reply, in
document order. -/
theorem collection_reply_spec :
    (∀ reply : Element, reply.tag ≠ "results" →
      getResultsReply reply = some []) ∧
    (∀ reply : Element, reply.tag ≠ "projects" →
      getProjectsReply reply = some []) ∧
    (∀ (reply : Element) (res : List Obj), reply.tag = "results" →
      decodeEach resultParse reply.children = some res →
      getResultsReply reply = some res ∧
      res.length = reply.children.length ∧
      ∀ i : Nat, res[i]? = (reply.children[i]?).bind resultParse) ∧
    (∀ (reply : Element) (res : List Obj), reply.tag = "projects" →
      decodeEach projectParse reply.children = some res →
      getProjectsReply reply = some res ∧
      res.length = reply.children.length ∧
      ∀ i : Nat, res[i]? = (reply.children[i]?).bind projectParse) := by
  refine ⟨?_, ?_, ?_, ?_⟩
  · intro reply h
    have hb : (reply.tag == "results") = false := beq_eq_false_iff_ne.mpr h
    simp [getResultsReply, hb]
  · intro reply h
    have hb : (reply.tag == "projects") = false := beq_eq_false_iff_ne.mpr h
    simp [getProjectsReply, hb]
  · intro reply res h1 h2
    refine ⟨?_, decodeEach_length _ _ _ h2, decodeEach_getElem _ _ _ h2⟩
    simp [getResultsReply, h1, h2]
  · intro reply res h1 h2
    refine ⟨?_, decodeEach_length _ _ _ h2, decodeEach_getElem _ _ _ h2⟩
    cases hc : reply.children.isEmpty with
    | true =>
        have hnil : reply.children = [] := by
          cases hl : reply.children with
          | nil => rfl
          | cons a l => rw [hl] at hc; simp [List.isEmpty] at hc
        rw [hnil] at h2
        simp only [decodeEach, Option.some.injEq] at h2
        subst h2
        simp [getProjectsReply, pyTruthyElem, hnil]
    | false =>
        simp [getProjectsReply, pyTruthyElem, hc, h1, h2]

/-- Witness for `collection_reply_spec`: unexpected tags give empty lists,
and a singleton `results` reply decodes to one entity. -/
theorem collection_reply_spec_witness :
    getResultsReply ⟨"spam", none, []⟩ = some [] ∧
    getProjectsReply ⟨"eggs", none, []⟩ = some [] ∧
    (getResultsReply ⟨"results", none, [⟨"result", none, []⟩]⟩).map
      List.length = some 1 := by
  refine ⟨collection_reply_spec.1 _ (by decide),
    collection_reply_spec.2.1 _ (by decide), ?_⟩
  have h := collection_reply_spec.2.2.1 ⟨"results", none, [⟨"result", none, []⟩]⟩
    ((decodeEach resultParse [⟨"result", none, []⟩]).getD []) rfl rfl
  rw [h.1]
  simp [h.2.1]

end Boinc
